import Mathlib

/-!
# Verification of the Drones remote-control link

Shallow embedding of the control codec, client stick-state writers, server
receive loop, video-send policy, loop guards, and calibration helpers of the
repository (src/test_client.py, src/test_server.py, src/calibration.py,
src/calibration_with_display.py, src/movements.py), with theorems settling
the spec's claims about them.
-/

namespace Drones

/-! ## Constants (test_client.py lines 16-19, shared across files) -/

def MIN_VAL : ℤ := 1
def MAX_VAL : ℤ := 32768
def MID_VAL : ℤ := 16384
def RADIUS : ℤ := 16000

/-! ## Control codec

`struct.pack('iiii', r, p, y, t)` on the client (test_client.py line 41)
produces four little-endian signed 32-bit integers, 16 bytes total;
`struct.unpack('iiii', data)` on the server (test_server.py line 198)
reverses it.  A byte is modelled as a `ℕ` below 256. -/

structure AxisSample where
  roll : ℤ
  pitch : ℤ
  yaw : ℤ
  throttle : ℤ
  deriving DecidableEq, Repr

/-- Little-endian byte decomposition of a natural number below 2^32. -/
def toBytesLE (n : ℕ) : List ℕ :=
  [n % 256, n / 256 % 256, n / 65536 % 256, n / 16777216 % 256]

/-- Recompose a little-endian byte list into a natural number. -/
def fromBytesLE : List ℕ → ℕ
  | [] => 0
  | b :: rest => b + 256 * fromBytesLE rest

/-- Encode one signed 32-bit integer as `struct.pack('i', v)` does:
two's-complement little-endian. -/
def encInt32 (v : ℤ) : List ℕ :=
  toBytesLE ((v % 4294967296).toNat)

/-- Decode an unsigned 32-bit value to the signed integer
`struct.unpack('i', _)` yields (two's complement). -/
def decInt32 (n : ℕ) : ℤ :=
  if n < 2147483648 then (n : ℤ) else (n : ℤ) - 4294967296

/-- `struct.pack('iiii', ...)` (test_client.py lines 41-45): each value must
fit in a signed 32-bit integer, otherwise `struct.error` is raised (modelled
as `none`); on success the packet is the concatenation of the four 4-byte
encodings in field order roll, pitch, yaw, throttle. -/
def encodeControlPacket (s : AxisSample) : Option (List ℕ) :=
  if (-2147483648 ≤ s.roll ∧ s.roll < 2147483648) ∧
     (-2147483648 ≤ s.pitch ∧ s.pitch < 2147483648) ∧
     (-2147483648 ≤ s.yaw ∧ s.yaw < 2147483648) ∧
     (-2147483648 ≤ s.throttle ∧ s.throttle < 2147483648) then
    some (encInt32 s.roll ++ encInt32 s.pitch ++ encInt32 s.yaw ++
          encInt32 s.throttle)
  else none

/-- `struct.unpack('iiii', data)` guarded by the server's length check
(test_server.py lines 197-198): a payload whose length is not exactly 16
bytes is never unpacked (`none`); a 16-byte payload decodes to the four
signed 32-bit fields. -/
def decodeControlPacket (data : List ℕ) : Option AxisSample :=
  if data.length = 16 then
    some ⟨decInt32 (fromBytesLE (data.take 4)),
          decInt32 (fromBytesLE ((data.drop 4).take 4)),
          decInt32 (fromBytesLE ((data.drop 8).take 4)),
          decInt32 (fromBytesLE (data.drop 12))⟩
  else none

lemma dec_enc (v : ℤ) (h1 : -2147483648 ≤ v) (h2 : v < 2147483648) :
    decInt32 (fromBytesLE (encInt32 v)) = v := by
  simp only [encInt32, toBytesLE, fromBytesLE, decInt32]
  omega

lemma decode_encode_four (a b c d : ℤ) :
    decodeControlPacket (encInt32 a ++ encInt32 b ++ encInt32 c ++
        encInt32 d) =
      some ⟨decInt32 (fromBytesLE (encInt32 a)),
            decInt32 (fromBytesLE (encInt32 b)),
            decInt32 (fromBytesLE (encInt32 c)),
            decInt32 (fromBytesLE (encInt32 d))⟩ := by
  rfl

/-- C1: decoding the 16-byte packet produced by encoding an in-range
AxisSample yields the original sample: `decode(encode(s)) == s` for all
samples whose four values lie in `[MIN_VAL, MAX_VAL] = [1, 32768]`. -/
theorem control_roundtrip (s : AxisSample)
    (hr1 : MIN_VAL ≤ s.roll) (hr2 : s.roll ≤ MAX_VAL)
    (hp1 : MIN_VAL ≤ s.pitch) (hp2 : s.pitch ≤ MAX_VAL)
    (hy1 : MIN_VAL ≤ s.yaw) (hy2 : s.yaw ≤ MAX_VAL)
    (ht1 : MIN_VAL ≤ s.throttle) (ht2 : s.throttle ≤ MAX_VAL) :
    (encodeControlPacket s).bind decodeControlPacket = some s := by
  obtain ⟨r, p, y, t⟩ := s
  simp only [MIN_VAL, MAX_VAL] at *
  rw [encodeControlPacket]
  simp only []
  rw [if_pos (by refine ⟨⟨?_, ?_⟩, ⟨?_, ?_⟩, ⟨?_, ?_⟩, ?_, ?_⟩ <;> omega)]
  rw [Option.some_bind, decode_encode_four,
      dec_enc r (by omega) (by omega), dec_enc p (by omega) (by omega),
      dec_enc y (by omega) (by omega), dec_enc t (by omega) (by omega)]

/-- C1 witness: the round trip at the concrete sample
`{roll=16384, pitch=16384, yaw=384, throttle=1}`. -/
theorem control_roundtrip_witness :
    (encodeControlPacket ⟨16384, 16384, 384, 1⟩).bind decodeControlPacket =
      some ⟨16384, 16384, 384, 1⟩ :=
  control_roundtrip ⟨16384, 16384, 384, 1⟩ (by decide) (by decide)
    (by decide) (by decide) (by decide) (by decide) (by decide) (by decide)

/-! ## Clamping and Python `int()`

`clamp(v, lo, hi)` is the helper of calibration_with_display.py lines 82-83;
calibration.py, movements.py and test_client.py inline the same expression
`max(MIN_VAL, min(MAX_VAL, value))`.  Values can be Python floats (the
pattern generators store `MID_VAL + cos(angle)*RADIUS`), modelled as `ℚ`;
`int()` truncates toward zero. -/

/-- `clamp(v, lo, hi) = max(lo, min(hi, v))`
(calibration_with_display.py lines 82-83). -/
def clamp (v lo hi : ℚ) : ℚ := max lo (min hi v)

/-- Python `int(_)` on a number: truncation toward zero. -/
def pyInt (q : ℚ) : ℤ := if 0 ≤ q then ⌊q⌋ else ⌈q⌉

lemma clamp_low (v lo hi : ℚ) : lo ≤ clamp v lo hi := le_max_left lo _

lemma clamp_high (v lo hi : ℚ) (h : lo ≤ hi) : clamp v lo hi ≤ hi :=
  max_le h (min_le_left hi v)

lemma clamp_of_mem (w lo hi : ℚ) (h1 : lo ≤ w) (h2 : w ≤ hi) :
    clamp w lo hi = w := by
  rw [clamp, min_eq_right h2, max_eq_right h1]

lemma pyInt_intCast (k : ℤ) : pyInt (k : ℚ) = k := by
  rw [pyInt]
  split
  · exact Int.floor_intCast k
  · exact Int.ceil_intCast k

lemma pyInt_mem (q : ℚ) (lo hi : ℤ) (h0 : 0 ≤ lo) (h1 : (lo : ℚ) ≤ q)
    (h2 : q ≤ (hi : ℚ)) : lo ≤ pyInt q ∧ pyInt q ≤ hi := by
  have hq : 0 ≤ q := le_trans (by exact_mod_cast h0) h1
  rw [pyInt, if_pos hq]
  refine ⟨Int.le_floor.mpr h1, ?_⟩
  exact_mod_cast le_trans (Int.floor_le q) h2

/-- C4: for every value v, `clamp(v, MIN_VAL, MAX_VAL)` lies in
`[MIN_VAL, MAX_VAL]`, and clamp is idempotent:
`clamp(clamp(v)) == clamp(v)`. -/
theorem clamp_spec (v : ℚ) :
    ((MIN_VAL : ℚ) ≤ clamp v (MIN_VAL : ℚ) (MAX_VAL : ℚ) ∧
      clamp v (MIN_VAL : ℚ) (MAX_VAL : ℚ) ≤ (MAX_VAL : ℚ)) ∧
    clamp (clamp v (MIN_VAL : ℚ) (MAX_VAL : ℚ)) (MIN_VAL : ℚ) (MAX_VAL : ℚ) =
      clamp v (MIN_VAL : ℚ) (MAX_VAL : ℚ) := by
  have hlohi : (MIN_VAL : ℚ) ≤ (MAX_VAL : ℚ) := by
    norm_num [MIN_VAL, MAX_VAL]
  exact ⟨⟨clamp_low v _ _, clamp_high v _ _ hlohi⟩,
    clamp_of_mem _ _ _ (clamp_low v _ _) (clamp_high v _ _ hlohi)⟩

/-! ## Client stick state (test_client.py) -/

structure StickState where
  roll : ℚ
  pitch : ℚ
  yaw : ℚ
  throttle : ℚ
  deriving DecidableEq, Repr

/-- Initial `stick_state` (test_client.py line 21):
`{'roll': MID_VAL, 'pitch': MID_VAL, 'yaw': MID_VAL, 'throttle': 0}`. -/
def stickInit : StickState := ⟨16384, 16384, 16384, 0⟩

inductive Axis
  | roll
  | pitch
  | yaw
  | throttle
  deriving DecidableEq, Repr

def setStickAxis (st : StickState) (a : Axis) (v : ℚ) : StickState :=
  match a with
  | .roll => { st with roll := v }
  | .pitch => { st with pitch := v }
  | .yaw => { st with yaw := v }
  | .throttle => { st with throttle := v }

/-- The four integers `send_packet` (test_client.py lines 41-45) would pack
from a state: `int()` of each stored field, in field order. -/
def sampleOfState (st : StickState) : AxisSample :=
  ⟨pyInt st.roll, pyInt st.pitch, pyInt st.yaw, pyInt st.throttle⟩

/-- `send_packet()` (test_client.py lines 39-49): packs the current state as
is — no clamping happens in this function. -/
def sendPacket (st : StickState) : Option (List ℕ) :=
  encodeControlPacket (sampleOfState st)

/-- `update_axis(axis_name, value)` (test_client.py lines 51-54):
`val = int(max(MIN_VAL, min(MAX_VAL, value)))`, stored into the state. -/
def updateAxis (st : StickState) (a : Axis) (value : ℚ) : StickState :=
  setStickAxis st a
    ((pyInt (max (MIN_VAL : ℚ) (min (MAX_VAL : ℚ) value)) : ℤ) : ℚ)

/-- `center_sticks()` (test_client.py lines 56-61): all four fields set to
`MID_VAL`. -/
def centerSticks (_st : StickState) : StickState :=
  ⟨(MID_VAL : ℚ), (MID_VAL : ℚ), (MID_VAL : ℚ), (MID_VAL : ℚ)⟩

/-- One iteration of the `circles_worker` loop body (test_client.py lines
69-72), with the floating-point `math.cos(angle)` and `math.sin(angle)`
abstracted as rationals `c` and `s` (each lies in `[-1, 1]`).  The raw
(unclamped) values are stored into the state. -/
def circlesStep (c s : ℚ) : StickState :=
  { yaw := (MID_VAL : ℚ) + c * (RADIUS : ℚ)
    throttle := (MID_VAL : ℚ) + s * (RADIUS : ℚ)
    roll := (MID_VAL : ℚ) + c * (RADIUS : ℚ)
    pitch := (MID_VAL : ℚ) + -s * (RADIUS : ℚ) }

/-- All four integers `send_packet` would pack from a state lie in
`[MIN_VAL, MAX_VAL]`. -/
def stateInRange (st : StickState) : Prop :=
  (MIN_VAL ≤ pyInt st.roll ∧ pyInt st.roll ≤ MAX_VAL) ∧
  (MIN_VAL ≤ pyInt st.pitch ∧ pyInt st.pitch ≤ MAX_VAL) ∧
  (MIN_VAL ≤ pyInt st.yaw ∧ pyInt st.yaw ≤ MAX_VAL) ∧
  (MIN_VAL ≤ pyInt st.throttle ∧ pyInt st.throttle ≤ MAX_VAL)

instance (st : StickState) : Decidable (stateInRange st) := by
  unfold stateInRange
  infer_instance

lemma pyInt_mid_mem : MIN_VAL ≤ pyInt (MID_VAL : ℚ) ∧
    pyInt (MID_VAL : ℚ) ≤ MAX_VAL := by
  rw [pyInt_intCast MID_VAL]
  constructor <;> norm_num [MIN_VAL, MID_VAL, MAX_VAL]

lemma pyInt_clamped_mem (v : ℚ) :
    MIN_VAL ≤ pyInt (max (MIN_VAL : ℚ) (min (MAX_VAL : ℚ) v)) ∧
    pyInt (max (MIN_VAL : ℚ) (min (MAX_VAL : ℚ) v)) ≤ MAX_VAL := by
  refine pyInt_mem _ _ _ (by norm_num [MIN_VAL]) (le_max_left _ _) ?_
  exact max_le (by norm_num [MIN_VAL, MAX_VAL]) (min_le_left _ _)

lemma pyInt_circle_mem (c : ℚ) (h1 : -1 ≤ c) (h2 : c ≤ 1) :
    MIN_VAL ≤ pyInt ((MID_VAL : ℚ) + c * (RADIUS : ℚ)) ∧
    pyInt ((MID_VAL : ℚ) + c * (RADIUS : ℚ)) ≤ MAX_VAL := by
  refine pyInt_mem _ _ _ (by norm_num [MIN_VAL]) ?_ ?_ <;>
    simp only [MIN_VAL, MID_VAL, MAX_VAL, RADIUS] <;> push_cast <;> nlinarith

lemma pyInt_16384_mem :
    MIN_VAL ≤ pyInt (16384 : ℚ) ∧ pyInt (16384 : ℚ) ≤ MAX_VAL := by
  decide

lemma pyInt_cast_clamped_mem (v : ℚ) :
    MIN_VAL ≤
      pyInt ((pyInt (max (MIN_VAL : ℚ) (min (MAX_VAL : ℚ) v)) : ℤ) : ℚ) ∧
    pyInt ((pyInt (max (MIN_VAL : ℚ) (min (MAX_VAL : ℚ) v)) : ℤ) : ℚ) ≤
      MAX_VAL := by
  rw [pyInt_intCast]
  exact pyInt_clamped_mem v

/-- C9: at client startup `stick_state` is
`{roll=MID_VAL, pitch=MID_VAL, yaw=MID_VAL, throttle=0}`; the throttle field
starts at 0, strictly below `MIN_VAL = 1`, so the in-range invariant fails
for the initial state; it holds after `center_sticks` runs, and after
`update_axis` runs on the throttle axis. -/
theorem initial_state_throttle_out_of_range :
    stickInit = ⟨(MID_VAL : ℚ), (MID_VAL : ℚ), (MID_VAL : ℚ), 0⟩ ∧
    (sampleOfState stickInit).throttle = 0 ∧
    (sampleOfState stickInit).throttle < MIN_VAL ∧
    ¬ stateInRange stickInit ∧
    stateInRange (centerSticks stickInit) ∧
    ∀ v : ℚ, stateInRange (updateAxis stickInit Axis.throttle v) := by
  refine ⟨by decide, by decide, by decide, by decide, by decide, ?_⟩
  intro v
  exact ⟨pyInt_16384_mem, pyInt_16384_mem, pyInt_16384_mem,
    pyInt_cast_clamped_mem v⟩

/-- C3 counterexample: at the initial `stick_state` (test_client.py line 21),
`send_packet` packs throttle = 0, which is outside `[MIN_VAL, MAX_VAL]`;
the encoder passes the out-of-range value through to the packet unchanged
instead of clamping or rejecting it. -/
theorem send_packet_unclamped_cex :
    (sampleOfState stickInit).throttle = 0 ∧
    ¬ (MIN_VAL ≤ (sampleOfState stickInit).throttle) ∧
    sendPacket stickInit =
      some (encInt32 16384 ++ encInt32 16384 ++ encInt32 16384 ++
            encInt32 0) := by
  refine ⟨by decide, by decide, by decide⟩

/-- C3 amended: `send_packet` itself never clamps, but every state produced
by the client's writers packs four integers in `[MIN_VAL, MAX_VAL]`:
`update_axis` clamps its value and preserves the invariant from any in-range
state, `center_sticks` writes `MID_VAL` everywhere, and a `circles_worker`
iteration (cos and sin values in `[-1, 1]`) writes values inside
`[MID_VAL - RADIUS, MID_VAL + RADIUS] ⊆ [MIN_VAL, MAX_VAL]`. -/
theorem client_writers_in_range (st : StickState) (a : Axis) (v c s : ℚ)
    (hst : stateInRange st)
    (hc1 : -1 ≤ c) (hc2 : c ≤ 1) (hs1 : -1 ≤ s) (hs2 : s ≤ 1) :
    stateInRange (updateAxis st a v) ∧
    stateInRange (centerSticks st) ∧
    stateInRange (circlesStep c s) := by
  obtain ⟨h1, h2, h3, h4⟩ := hst
  refine ⟨?_, ?_, ?_⟩
  · cases a
    · exact ⟨pyInt_cast_clamped_mem v, h2, h3, h4⟩
    · exact ⟨h1, pyInt_cast_clamped_mem v, h3, h4⟩
    · exact ⟨h1, h2, pyInt_cast_clamped_mem v, h4⟩
    · exact ⟨h1, h2, h3, pyInt_cast_clamped_mem v⟩
  · exact ⟨pyInt_mid_mem, pyInt_mid_mem, pyInt_mid_mem, pyInt_mid_mem⟩
  · have hns1 : -1 ≤ -s := by linarith
    have hns2 : -s ≤ 1 := by linarith
    exact ⟨pyInt_circle_mem c hc1 hc2, pyInt_circle_mem (-s) hns1 hns2,
      pyInt_circle_mem c hc1 hc2, pyInt_circle_mem s hs1 hs2⟩

/-- C3 witness: the amended claim instantiated at the centered state, axis
roll with value 0, and cosine 1 / sine 0. -/
theorem client_writers_in_range_witness :
    stateInRange (updateAxis (centerSticks stickInit) Axis.roll 0) ∧
    stateInRange (centerSticks (centerSticks stickInit)) ∧
    stateInRange (circlesStep 1 0) :=
  client_writers_in_range (centerSticks stickInit) Axis.roll 0 1 0
    (by decide) (by decide) (by decide) (by decide) (by decide)

/-! ## Calibration-tool device writes -/

/-- `set_axis(axis_id, value)` of calibration.py lines 30-32: the integer
passed to `joystick.set_axis` is `int(max(MIN_VAL, min(MAX_VAL, value)))`. -/
def calibrationSetAxis (value : ℚ) : ℤ :=
  pyInt (max (MIN_VAL : ℚ) (min (MAX_VAL : ℚ) value))

/-- `set_axis(axis_id, value)` of calibration_with_display.py lines 86-100:
the integer passed to `joystick.set_axis` is
`int(clamp(value, MIN_VAL, MAX_VAL))`. -/
def displaySetAxis (value : ℚ) : ℤ :=
  pyInt (clamp value (MIN_VAL : ℚ) (MAX_VAL : ℚ))

/-- `set_throttle(value)` of movements.py lines 18-21: the integer passed to
`joystick.set_axis` is `int(max(MIN_VAL, min(MAX_VAL, value)))`. -/
def setThrottle (value : ℚ) : ℤ :=
  pyInt (max (MIN_VAL : ℚ) (min (MAX_VAL : ℚ) value))

/-- C10: every device write made by the calibration helpers — `set_axis` in
calibration.py, `set_axis` in calibration_with_display.py, and
`set_throttle` in movements.py — passes `joystick.set_axis` an integer in
`[MIN_VAL, MAX_VAL]`, for every input value including non-integer and
out-of-range ones. -/
theorem calibration_device_writes_in_range (v : ℚ) :
    (MIN_VAL ≤ calibrationSetAxis v ∧ calibrationSetAxis v ≤ MAX_VAL) ∧
    (MIN_VAL ≤ displaySetAxis v ∧ displaySetAxis v ≤ MAX_VAL) ∧
    (MIN_VAL ≤ setThrottle v ∧ setThrottle v ≤ MAX_VAL) :=
  ⟨pyInt_clamped_mem v, pyInt_clamped_mem v, pyInt_clamped_mem v⟩

/-! ## Server receive loop (test_server.py) -/

/-- The values `receive_controls` (test_server.py lines 197-204) passes to
`joystick.set_axis` for one datagram, in write order
(HID_USAGE_X = roll, Y = pitch, RX = yaw, Z = throttle); `none` when the
datagram is discarded by the length guard.  The decoded values are written
exactly as they come out of `struct.unpack` — there is no clamping. -/
def receiveStep (data : List ℕ) : Option (List ℤ) :=
  (decodeControlPacket data).map
    (fun s => [s.roll, s.pitch, s.yaw, s.throttle])

/-- C2 counterexample: the well-formed 16-byte datagram encoding
`(-5, 16384, 16384, 1)` decodes successfully and the receiver writes −5 —
a value outside `[MIN_VAL, MAX_VAL]` — to the output device; nothing clamps
it. -/
theorem receiver_unclamped_cex :
    receiveStep [251, 255, 255, 255, 0, 64, 0, 0, 0, 64, 0, 0, 1, 0, 0, 0] =
      some [-5, 16384, 16384, 1] ∧
    ¬ (MIN_VAL ≤ (-5 : ℤ)) := by
  decide

/-- C2 amended: for every 16-byte control datagram the receiver successfully
decodes, the four channel values written to `joystick.set_axis` are exactly
the decoded signed 32-bit fields, passed through verbatim with no clamping
to `[MIN_VAL, MAX_VAL]` at the device boundary. -/
theorem receiver_passthrough (data : List ℕ) (s : AxisSample)
    (h : decodeControlPacket data = some s) :
    receiveStep data = some [s.roll, s.pitch, s.yaw, s.throttle] := by
  rw [receiveStep, h]
  rfl

/-- C2 witness: the pass-through at the packet encoding
`(16384, 16384, 16384, 1)`. -/
theorem receiver_passthrough_witness :
    receiveStep [0, 64, 0, 0, 0, 64, 0, 0, 0, 64, 0, 0, 1, 0, 0, 0] =
      some [16384, 16384, 16384, 1] :=
  receiver_passthrough _ ⟨16384, 16384, 16384, 1⟩ (by decide)

/-- C6: a received control datagram whose length is not exactly 16 bytes is
discarded: the decode is never attempted (the length guard at test_server.py
line 197 fails, so `struct.unpack` is not reached) and no value is written
to the output device; the guarded `if` has no else branch, so the loop
continues with the next iteration. -/
theorem malformed_discarded (data : List ℕ) (h : data.length ≠ 16) :
    decodeControlPacket data = none ∧ receiveStep data = none := by
  have hd : decodeControlPacket data = none := by
    rw [decodeControlPacket, if_neg h]
  exact ⟨hd, by rw [receiveStep, hd]; rfl⟩

/-- C6 witness: the 3-byte datagram `[1, 2, 3]` is discarded. -/
theorem malformed_discarded_witness :
    decodeControlPacket [1, 2, 3] = none ∧ receiveStep [1, 2, 3] = none :=
  malformed_discarded [1, 2, 3] (by decide)

/-! ## Server video-send loop (test_server.py main loop) -/

/-- One iteration of the server's video loop at the send decision
(test_server.py lines 229-233): the encoded buffer is sent as one datagram
exactly when `len(buffer) < 65000`; otherwise no send call is made for that
frame.  `some size` models the single `sendto` of that payload. -/
def videoSendStep (encodedSize : ℕ) : Option ℕ :=
  if encodedSize < 65000 then some encodedSize else none

/-- C5: a compressed frame is sent to the client's video endpoint if and
only if its encoded size is strictly below 65,000 bytes; a frame of size at
least 65,000 bytes is dropped entirely, with no send call. -/
theorem video_send_iff (n : ℕ) :
    ((videoSendStep n).isSome ↔ n < 65000) ∧
    ((videoSendStep n) = none ↔ 65000 ≤ n) := by
  by_cases h : n < 65000
  · simp [videoSendStep, h]
  · simp [videoSendStep, h]
    omega

/-! ## Loop guards and the shared stop flags

Each loop's guard as a function of the shared flag it does (or does not)
consult: the loop runs another iteration exactly when the guard is true. -/

/-- Guard of the `receive_controls` loop (test_server.py line 185):
`while running`. -/
def receiveLoopGuard (running : Bool) : Bool := running

/-- Guard of the server's main video-send loop (test_server.py line 222):
`while True` — the shared `running` flag is not consulted. -/
def videoSendLoopGuard (_running : Bool) : Bool := true

/-- Guard of the client's `circles_worker` loop (test_client.py line 68):
`while keep_running`. -/
def circlesLoopGuard (keepRunning : Bool) : Bool := keepRunning

/-- Guard of the client's `throttle_up_worker` loop (test_client.py line
80): `while keep_running`. -/
def throttleUpLoopGuard (keepRunning : Bool) : Bool := keepRunning

/-- Guard of the client's `video_receiver_thread` loop (test_client.py line
93): `while True` — the shared flag is not consulted. -/
def videoReceiverLoopGuard (_running : Bool) : Bool := true

/-- C8 counterexample: with the shared stop flag cleared (set to stop), the
server's video-send loop and the client's video-receiver loop still iterate
(`while True` guards), while the control-receive loop does exit — so not
every channel loop observes the cancellation flag. -/
theorem video_loop_ignores_stop_cex :
    videoSendLoopGuard false = true ∧
    videoReceiverLoopGuard false = true ∧
    receiveLoopGuard false = false := by
  decide

/-- C8 amended: the loops guarded by the shared flags — the server's
control-receive loop (`while running`) and the client's pattern-generator
loops (`while keep_running`) — observe a cleared flag at their next
iteration boundary and exit; the server's video-send loop and the client's
video-receiver loop run `while True`, never consult the flag, and terminate
only through an external interruption (KeyboardInterrupt, or the user's
quit key). -/
theorem loop_guard_spec (b : Bool) :
    receiveLoopGuard b = b ∧
    circlesLoopGuard b = b ∧
    throttleUpLoopGuard b = b ∧
    videoSendLoopGuard b = true ∧
    videoReceiverLoopGuard b = true := by
  cases b <;> decide

/-! ## Startup and exit codes -/

inductive StartupResult
  | exited (code : ℕ)
  | ready
  deriving DecidableEq, Repr

/-- Module-level vJoy setup of test_server.py lines 150-155: when
`pyvjoy.VJoyDevice` raises, the except branch prints the diagnostic and
calls bare `exit()`, which terminates the Python process with exit status 0
before the socket setup and the loops are reached; on success execution
continues. -/
def serverVJoySetup (vjoyOk : Bool) : StartupResult :=
  if vjoyOk then .ready else .exited 0

/-- vJoy setup of calibration.py lines 20-24 (calibration_with_display.py
lines 42-46 is identical): on failure prints the diagnostic and calls
`sys.exit(1)`, exit status 1. -/
def calibrationVJoySetup (vjoyOk : Bool) : StartupResult :=
  if vjoyOk then .ready else .exited 1

/-- C7 (code bug in test_server.py): when vJoy initialization fails, the
server process terminates before entering any send/receive loop, but its
exit status is 0 — bare `exit()` — not non-zero as claimed; the calibration
tools exit with status 1 as the claim requires. -/
theorem server_exit_code_on_vjoy_failure :
    serverVJoySetup false = StartupResult.exited 0 ∧
    calibrationVJoySetup false = StartupResult.exited 1 ∧
    serverVJoySetup false ≠ StartupResult.ready := by
  decide

end Drones
